import Mathlib

/-
Verification of the worktree lifecycle manager (src/agent.py).

The program is a thin orchestrator over a version-control backend: every
observable decision it makes is a function of the textual results of the
backend commands it runs.  The shallow embedding therefore models:

  * Python string operations used by the parser (strip, startswith,
    split, replace, lower) as functions on lists of characters;
  * a backend command result (returncode / stdout / stderr) and the
    run_command wrapper, including its check flag (check=True aborts the
    process with exit 1 on a non-zero status, check=False returns the
    result unconditionally);
  * the backend as a record giving, for each command the program issues,
    the result the backend would return; mutation commands are recorded
    as an ordered trace of Mutation events;
  * the lifecycle operations create_worktree, attach_worktree,
    destroy_worktree and destroy_worktree_interactive as functions from
    a backend to an outcome plus the mutation trace.

Queries that the source runs with check=True and whose value is consumed
unconditionally before anything observable happens (git rev-parse
--show-toplevel, git rev-parse --abbrev-ref HEAD, os.getcwd,
os.path.relpath) are modelled by their successful value: a checked
failure terminates the process before the operation acts, and run_command
itself is modelled separately.
-/

/-- Strings of the embedded program, as lists of characters. -/
abbrev Str := List Char

/-- Python str.strip(chars)-style stripping: remove characters satisfying
the predicate from both ends. -/
def pyStripWhen (p : Char → Bool) (s : Str) : Str :=
  ((s.dropWhile p).reverse.dropWhile p).reverse

/-- Python str.strip() with no argument: strip whitespace from both ends. -/
def pyStrip (s : Str) : Str := pyStripWhen Char.isWhitespace s

/-- Python str.lower(). -/
def pyLower (s : Str) : Str := s.map Char.toLower

/-- Python line.split(" ", 1)[1]: everything after the first space.  The
source only evaluates this under a startswith guard that guarantees a
space is present. -/
def splitOnceTail (s : Str) : Str :=
  (s.dropWhile (fun c => c != ' ')).drop 1

/-- Python s.split(sep) for a one-character separator: n separators give
n+1 (possibly empty) parts; splitting the empty string gives one empty
part. -/
def pySplitChar (sep : Char) : Str → List Str
  | [] => [[]]
  | c :: rest =>
    if c == sep then [] :: pySplitChar sep rest
    else
      match pySplitChar sep rest with
      | [] => [[c]]
      | part :: parts => (c :: part) :: parts

/-- Helper for Python str.replace: fuel-indexed scan replacing
non-overlapping occurrences left to right.  Fuel at least the length of
the scanned list makes the fuel-exhaustion arm unreachable. -/
def pyReplaceAux (old new : Str) : Nat → Str → Str
  | _, [] => []
  | 0, s => s
  | fuel + 1, c :: rest =>
    if old.isPrefixOf (c :: rest) && !old.isEmpty then
      new ++ pyReplaceAux old new fuel ((c :: rest).drop old.length)
    else
      c :: pyReplaceAux old new fuel rest

/-- Python s.replace(old, new) for non-empty old (every use in the source
has a non-empty pattern): replace each non-overlapping occurrence, left
to right. -/
def pyReplace (s old new : Str) : Str :=
  pyReplaceAux old new s.length s

/-- Result of one backend command: subprocess returncode, captured
stdout and stderr (src/agent.py line 23). -/
structure CmdResult where
  returncode : Int
  stdout : Str
  stderr : Str
deriving DecidableEq

/-- run_command (src/agent.py lines 21-30): with check enabled a
non-zero returncode prints the backend diagnostic and exits 1 (modelled
as the error case, carrying the failing result whose stderr is the
diagnostic); otherwise the result is returned. -/
def run_command (check : Bool) (r : CmdResult) : Except CmdResult CmdResult :=
  if check && r.returncode != 0 then .error r else .ok r

/-- A call of run_command with check=False: it never aborts, so both
cases of the wrapper yield the result itself. -/
def queryUnchecked (r : CmdResult) : CmdResult :=
  match run_command false r with
  | .ok res => res
  | .error res => res

/-- The backend mutation commands the program can issue, in the order
fields of the trace. -/
inductive Mutation
  /-- git checkout -b name (src/agent.py line 250) -/
  | createBranch (name : Str)
  /-- git config branch.name.description desc (line 360) -/
  | setDescription (branch desc : Str)
  /-- git checkout - (line 253) -/
  | checkoutPrevious
  /-- os.makedirs(path, exist_ok=True) (lines 259, 272, 308) -/
  | makeDirs (path : Str)
  /-- git worktree add path branch (line 263) -/
  | addWorktree (path branch : Str)
  /-- copy_untracked_paths(src, dst) (line 275) -/
  | copyUntracked (src dst : Str)
  /-- os.chdir(path) (lines 278, 311) -/
  | chdir (path : Str)
  /-- git worktree remove --force path (line 524) -/
  | removeWorktree (path : Str)
  /-- git branch -D name when forced, git branch -d name otherwise
  (lines 529, 531) -/
  | deleteBranch (name : Str) (forced : Bool)
deriving DecidableEq

/-- The backend environment: for each command the program issues, the
result the backend returns.  Checked queries whose failure only aborts
the process before the operation acts are given by their successful
value (see the file header). -/
structure Backend where
  /-- git rev-parse --show-toplevel (line 76) -/
  gitRoot : Str
  /-- os.getcwd() at invocation time (lines 223, 288) -/
  cwd : Str
  /-- os.path.relpath(cwd, gitRoot) (lines 230, 292) -/
  relPathCwdRoot : Str
  /-- git rev-parse --abbrev-ref HEAD (line 353) -/
  currentBranch : Str
  /-- stdout of git worktree list --porcelain (lines 84, 107) -/
  porcelain : Str
  /-- git show-ref --verify --quiet refs/heads/name, check=False (line 137) -/
  showRef : Str → CmdResult
  /-- git status --porcelain at a path, check=False (line 465) -/
  statusAt : Str → CmdResult
  /-- git config branch.name.description, check=False (line 365) -/
  configDescription : Str → CmdResult
  /-- git branch -r | grep -v HEAD | head -1, checked (line 379) -/
  remoteBranches : CmdResult
  /-- git branch --merged target, check=False, run with the given
  working directory (line 391) -/
  mergedAt : Str → Option Str → CmdResult
  /-- git rev-parse branch, check=False (line 411) -/
  revParse : Str → CmdResult
  /-- git ls-remote --heads origin branch, check=False (line 402) -/
  lsRemote : Str → CmdResult
  /-- raw operator reply to the attach prompt (line 241) -/
  promptResponse : Str
  /-- result of each checked mutation command (lines 250, 253, 263,
  360, 524, 529, 531) -/
  mutResult : Mutation → CmdResult

def wtMarker : Str := "worktree ".data
def brMarker : Str := "branch ".data
def rhMarker : Str := "refs/heads/".data
def parentMarker : Str := "Parent branch: ".data
def containerSuffix : Str := "-worktrees".data
def yStr : Str := "y".data

/-- result.stdout.strip().split("\n") applied to the porcelain worktree
listing (lines 85, 108). -/
def porcelainLines (stdout : Str) : List Str :=
  pySplitChar '\n' (pyStrip stdout)

/-- Scanning loop of get_worktree_path (lines 90-102).  current tracks
the pending worktree path; the Python initial None and a reset are both
falsy exactly like an empty payload, so the accumulator is a plain
string with the empty string for "no pending path". -/
def gwp_aux (git_root branch_name : Str) : List Str → Str → Option Str
  | [], _ => none
  | line :: rest, current_worktree =>
    if wtMarker.isPrefixOf line then
      gwp_aux git_root branch_name rest (splitOnceTail line)
    else if brMarker.isPrefixOf line && !current_worktree.isEmpty then
      -- the main repository entry is skipped, not returned (line 98)
      if splitOnceTail line == rhMarker ++ branch_name
          && current_worktree != git_root then
        some current_worktree
      else gwp_aux git_root branch_name rest []
    else
      gwp_aux git_root branch_name rest current_worktree

/-- get_worktree_path (lines 82-102). -/
def get_worktree_path (B : Backend) (branch_name : Str) : Option Str :=
  gwp_aux B.gitRoot branch_name (porcelainLines B.porcelain) []

/-- Scanning loop of get_all_worktrees (lines 113-132).  The is_bare
flag set on a literal "bare" line (line 130) is never read afterwards,
so it is not tracked. -/
def gaw_aux (git_root : Str) : List Str → Str → List (Str × Str)
  | [], _ => []
  | line :: rest, current_path =>
    if wtMarker.isPrefixOf line then
      gaw_aux git_root rest (splitOnceTail line)
    else if brMarker.isPrefixOf line && !current_path.isEmpty then
      (if rhMarker.isPrefixOf (splitOnceTail line)
          && current_path != git_root then
        [(pyReplace (splitOnceTail line) rhMarker [], current_path)]
      else []) ++ gaw_aux git_root rest []
    else
      gaw_aux git_root rest current_path

/-- get_all_worktrees (lines 105-132). -/
def get_all_worktrees (B : Backend) : List (Str × Str) :=
  gaw_aux B.gitRoot (porcelainLines B.porcelain) []

/-- branch_exists (lines 135-140). -/
def branch_exists (B : Backend) (branch_name : Str) : Bool :=
  (queryUnchecked (B.showRef branch_name)).returncode == 0

/-- Parsing step of get_branch_parent (lines 366-370). -/
def parse_branch_description (r : CmdResult) : Option Str :=
  if r.returncode == 0 && !(pyStrip r.stdout).isEmpty then
    let description := pyStrip r.stdout
    if parentMarker.isPrefixOf description then
      some (pyStrip (pyReplace description parentMarker []))
    else none
  else none

/-- get_branch_parent (lines 363-370). -/
def get_branch_parent (B : Backend) (branch_name : Str) : Option Str :=
  parse_branch_description (queryUnchecked (B.configDescription branch_name))

/-- set_branch_parent (lines 357-360): stores the formatted description
on the branch; reading it back yields the stored value with exit
status 0. -/
def set_branch_parent (B : Backend) (branch_name parent_branch : Str) : Backend :=
  { B with configDescription := fun b =>
      if b == branch_name then
        ⟨0, parentMarker ++ parent_branch, []⟩
      else B.configDescription b }

/-- get_main_branch (lines 373-382): first of main/master/develop that
exists, else the last slash-separated component of the first listed
remote branch;
the remote listing is a checked command, so its failure aborts. -/
def get_main_branch (B : Backend) : Except CmdResult (Option Str) :=
  if branch_exists B "main".data then .ok (some "main".data)
  else if branch_exists B "master".data then .ok (some "master".data)
  else if branch_exists B "develop".data then .ok (some "develop".data)
  else
    match run_command true B.remoteBranches with
    | .error r => .error r
    | .ok r =>
      let out := pyStrip r.stdout
      if out.isEmpty then .ok none
      else .ok (some ((pySplitChar '/' out).getLastD []))

/-- has_unstaged_changes (lines 463-466): true iff the status output is
non-empty after stripping; the command is run with check=False. -/
def has_unstaged_changes (r : CmdResult) : Bool :=
  !(pyStrip (queryUnchecked r).stdout).isEmpty

/-- Membership test of is_branch_merged on the merged-branches listing
(lines 394-397). -/
def merged_listing_contains (branch_name : Str) (r : CmdResult) : Bool :=
  (pySplitChar '\n' (pyStrip r.stdout)).any fun b =>
    pyStrip (pyStripWhen (fun c => c == '*') (pyStrip b)) == branch_name

/-- is_branch_merged (lines 385-397): the merged listing is evaluated
with the branch's own worktree as working directory; the command is run
with check=False. -/
def is_branch_merged (B : Backend) (branch_name target_branch : Str) : Bool :=
  merged_listing_contains branch_name
    (queryUnchecked (B.mergedAt target_branch (get_worktree_path B branch_name)))

/-- get_remote_branch_tip (lines 400-406): first whitespace-separated
token of the stripped ls-remote output, or none when empty. -/
def get_remote_branch_tip (B : Backend) (branch_name : Str) : Option Str :=
  let output := pyStrip (queryUnchecked (B.lsRemote branch_name)).stdout
  if output.isEmpty then none
  else some (output.takeWhile (fun c => !c.isWhitespace))

/-- is_branch_tip_pushed (lines 409-417). -/
def is_branch_tip_pushed (B : Backend) (branch_name : Str) : Bool :=
  let local_tip := pyStrip (queryUnchecked (B.revParse branch_name)).stdout
  if local_tip.isEmpty then false
  else
    match get_remote_branch_tip B branch_name with
    | none => false
    | some remote_tip => local_tip == remote_tip

/-- os.path.basename for the paths the program builds: the part after
the last separator. -/
def basename (s : Str) : Str :=
  (s.reverse.takeWhile (fun c => c != '/')).reverse

/-- os.path.dirname for the paths the program builds: the part before
the last separator (empty when there is none). -/
def dirname (s : Str) : Str :=
  ((s.reverse.dropWhile (fun c => c != '/')).drop 1).reverse

/-- os.path.join for a relative second component, as used by the
program. -/
def joinPath (a b : Str) : Str := a ++ ('/' :: b)

/-- Lines 230-232 / 292-294: the relative subpath from the repository
root to the working directory, with "." normalised to the empty
string. -/
def normRel (r : Str) : Str := if r == ".".data then [] else r

/-- How create and attach end: sys.exit with a status, or replacing the
process by an interactive shell positioned in a directory
(lines 245, 282, 301, 315). -/
inductive CreateOutcome
  | exit (code : Int)
  | execShell (dir : Str)
deriving DecidableEq

/-- One checked mutation command (run_command with check=True): the
attempt is recorded in the trace; a non-zero status aborts the process
(error case, carrying the failing result). -/
def applyMut (B : Backend) (acc : List Mutation) (m : Mutation) :
    Except (CmdResult × List Mutation) (List Mutation) :=
  match run_command true (B.mutResult m) with
  | .ok _ => .ok (acc ++ [m])
  | .error r => .error (r, acc ++ [m])

/-- Common tail of create_worktree and attach_worktree (lines 268-282 /
304-315): compute the target directory from the relative subpath,
create the subdirectory on demand, copy untracked paths when the
worktree was just created, chdir and exec the shell there. -/
def enter_worktree (B : Backend) (worktree_path relative_path : Str)
    (created : Bool) (acc : List Mutation) : CreateOutcome × List Mutation :=
  let target_dir :=
    if relative_path.isEmpty then worktree_path
    else joinPath worktree_path relative_path
  let acc :=
    if relative_path.isEmpty then acc else acc ++ [.makeDirs target_dir]
  let acc :=
    if created then acc ++ [.copyUntracked B.cwd target_dir] else acc
  (.execShell target_dir, acc ++ [.chdir target_dir])

/-- Branch-creation block of create_worktree (lines 248-253): when the
branch does not exist, create it from the current branch, record the
current branch as parent in the description, switch back. -/
def create_branch_steps (B : Backend) (branch_name : Str) :
    Except (CmdResult × List Mutation) (List Mutation) :=
  if branch_exists B branch_name then .ok []
  else
    match applyMut B [] (.createBranch branch_name) with
    | .error e => .error e
    | .ok a =>
      match applyMut B a (.setDescription branch_name (parentMarker ++ B.currentBranch)) with
      | .error e => .error e
      | .ok a =>
        match applyMut B a .checkoutPrevious with
        | .error e => .error e
        | .ok a => .ok a

/-- create_worktree (lines 221-282). -/
def create_worktree (B : Backend) (branch_name : Str) : CreateOutcome × List Mutation :=
  let relative_path := normRel B.relPathCwdRoot
  match get_worktree_path B branch_name with
  | some worktree_path =>
    -- worktree already exists: prompt to attach instead (lines 238-245)
    if pyLower (pyStrip B.promptResponse) == yStr then
      enter_worktree B worktree_path relative_path false []
    else (.exit 0, [])
  | none =>
    match create_branch_steps B branch_name with
    | .error (_, a) => (.exit 1, a)
    | .ok a =>
      -- sibling container directory, created on demand (lines 256-263)
      let container := joinPath (dirname B.gitRoot) (basename B.gitRoot ++ containerSuffix)
      let worktree_dir := joinPath container branch_name
      match applyMut B (a ++ [.makeDirs container]) (.addWorktree worktree_dir branch_name) with
      | .error (_, a2) => (.exit 1, a2)
      | .ok a2 => enter_worktree B worktree_dir relative_path true a2

/-- attach_worktree (lines 285-315). -/
def attach_worktree (B : Backend) (branch_name : Str) : CreateOutcome × List Mutation :=
  let relative_path := normRel B.relPathCwdRoot
  match get_worktree_path B branch_name with
  | none => (.exit 1, [])
  | some worktree_path => enter_worktree B worktree_path relative_path false []

/-- The destroy-safety failure classes of destroy_worktree: each fatal
sys.exit(1) site, plus a checked backend command failing. -/
inductive DestroyErr
  | notFound
  | dirtyWorktree
  | unknownParent
  | unsafeDestroy
  | backendFail (r : CmdResult)
deriving DecidableEq

inductive DOutcome
  | ok
  | err (e : DestroyErr)
deriving DecidableEq

/-- Observable result of destroy_worktree: outcome, ordered mutation
trace, the parent branch the safety check resolved (when resolution was
reached), and whether the missing-lineage warning (line 490) was
printed. -/
structure DestroyResult where
  outcome : DOutcome
  mutations : List Mutation
  resolvedParent : Option Str
  warnedMissingParent : Bool
deriving DecidableEq

/-- Tail of destroy_worktree after the parent branch is resolved
(lines 500-533): unless force, require merged-into-parent or
pushed-to-remote; then remove the worktree (backend-level force remove)
and delete the branch (-D under force, -d otherwise). -/
def destroy_finish (B : Backend) (branch_name worktree_path parent_branch : Str)
    (force warned : Bool) : DestroyResult :=
  if !force && (!is_branch_merged B branch_name parent_branch
      && !is_branch_tip_pushed B branch_name) then
    ⟨.err .unsafeDestroy, [], some parent_branch, warned⟩
  else
    match applyMut B [] (.removeWorktree worktree_path) with
    | .error (r, a) => ⟨.err (.backendFail r), a, some parent_branch, warned⟩
    | .ok a =>
      match applyMut B a (.deleteBranch branch_name force) with
      | .error (r, a2) => ⟨.err (.backendFail r), a2, some parent_branch, warned⟩
      | .ok a2 => ⟨.ok, a2, some parent_branch, warned⟩

/-- destroy_worktree (lines 471-533). -/
def destroy_worktree (B : Backend) (branch_name : Str) (force : Bool) : DestroyResult :=
  match get_worktree_path B branch_name with
  | none => ⟨.err .notFound, [], none, false⟩
  | some worktree_path =>
    -- dirty-worktree check, before anything else and regardless of
    -- force (lines 478-483)
    if has_unstaged_changes (B.statusAt worktree_path) then
      ⟨.err .dirtyWorktree, [], none, false⟩
    else
      match get_branch_parent B branch_name with
      | some parent_branch =>
        destroy_finish B branch_name worktree_path parent_branch force false
      | none =>
        -- missing lineage: warn and fall back to the main-branch
        -- heuristic (lines 489-498)
        match get_main_branch B with
        | .error r => ⟨.err (.backendFail r), [], none, true⟩
        | .ok none => ⟨.err .unknownParent, [], none, true⟩
        | .ok (some parent_branch) =>
          destroy_finish B branch_name worktree_path parent_branch force true

/-- Outcomes of destroy_worktree_interactive: the early return when no
worktree exists, a cancellation, the crash on an out-of-range menu
index (unreachable for a real menu), or delegation to
destroy_worktree. -/
inductive InteractiveOutcome
  | noWorktrees
  | cancelled
  | indexError
  | delegated (r : DestroyResult)
deriving DecidableEq

/-- destroy_worktree_interactive (lines 420-460).  menuSel and
confirmSel are the indices the two terminal menus return (none when the
menu is dismissed). -/
def destroy_worktree_interactive (B : Backend) (force : Bool)
    (menuSel confirmSel : Option Nat) : InteractiveOutcome :=
  let worktrees := get_all_worktrees B
  if worktrees.isEmpty then .noWorktrees
  else
    match menuSel with
    | none => .cancelled
    | some i =>
      -- menu options are the branch names plus a final Cancel entry
      if i == worktrees.length then .cancelled
      else
        match worktrees.get? i with
        | none => .indexError
        | some pr =>
          -- destruction runs only on the explicit first confirm entry
          -- (line 457); any other outcome, including dismissal, cancels
          match confirmSel with
          | some 0 => .delegated (destroy_worktree B pr.1 force)
          | _ => .cancelled

/-- The worktree directory an invocation of create or attach ends up
using for a branch: the existing worktree path when the backend lists
one, else the planned path under the sibling container directory. -/
def located_worktree (B : Backend) (branch_name : Str) : Str :=
  match get_worktree_path B branch_name with
  | some w => w
  | none =>
    joinPath (joinPath (dirname B.gitRoot) (basename B.gitRoot ++ containerSuffix)) branch_name

/-- A concrete backend: repository at /repo on branch main, one worktree
for branch feat at /repo-worktrees/feat, clean status, recorded parent
main, feat neither merged nor pushed, all mutation commands succeed,
operator replies n to prompts. -/
def B0 : Backend where
  gitRoot := "/repo".data
  cwd := "/repo".data
  relPathCwdRoot := ".".data
  currentBranch := "main".data
  porcelain :=
    "worktree /repo\nbranch refs/heads/main\n\nworktree /repo-worktrees/feat\nbranch refs/heads/feat\n".data
  showRef := fun b =>
    if b == "main".data || b == "feat".data then ⟨0, [], []⟩ else ⟨1, [], []⟩
  statusAt := fun _ => ⟨0, [], []⟩
  configDescription := fun b =>
    if b == "feat".data then ⟨0, "Parent branch: main".data, []⟩ else ⟨1, [], []⟩
  remoteBranches := ⟨0, [], []⟩
  mergedAt := fun _ _ => ⟨0, [], []⟩
  revParse := fun _ => ⟨0, [], []⟩
  lsRemote := fun _ => ⟨0, [], []⟩
  promptResponse := "n".data
  mutResult := fun _ => ⟨0, [], []⟩

/-- B0 with uncommitted changes in the feat worktree. -/
def Bdirty : Backend :=
  { B0 with statusAt := fun _ => ⟨0, " M file.txt\n".data, []⟩ }

/-- B0 with feat listed as merged into the target branch. -/
def Bmerged : Backend :=
  { B0 with mergedAt := fun _ _ => ⟨0, "* feat\n  main".data, []⟩ }

/-- B0 with no worktree for feat and no branch feat. -/
def Bnew : Backend :=
  { B0 with
    porcelain := "worktree /repo\nbranch refs/heads/main\n".data,
    showRef := fun b => if b == "main".data then ⟨0, [], []⟩ else ⟨1, [], []⟩ }

/-- Bnew but branch feat already exists (still no worktree). -/
def Bexisting : Backend :=
  { Bnew with showRef := fun _ => ⟨0, [], []⟩ }

/-- B0 with no recorded parent description for any branch. -/
def Bnoparent : Backend :=
  { B0 with configDescription := fun _ => ⟨1, [], []⟩ }

/-- B0 invoked from a subdirectory, operator confirming the attach
prompt with a sloppy " Y ". -/
def Bsub : Backend :=
  { B0 with
    cwd := "/repo/sub".data,
    relPathCwdRoot := "sub".data,
    promptResponse := " Y ".data }

/-- A backend command failing for a reason that is not a plain negative
result: not inside a repository. -/
def failRes : CmdResult :=
  ⟨128, [], "fatal: not a git repository".data⟩

/- Helper lemmas about the embedded string primitives. -/

theorem queryUnchecked_eq (r : CmdResult) : queryUnchecked r = r := rfl

theorem dropWhile_eq_self_of_forall {p : Char → Bool} {s : Str}
    (h : ∀ c ∈ s, p c = false) : s.dropWhile p = s := by
  cases s with
  | nil => rfl
  | cons c rest => simp [List.dropWhile_cons, h c (List.mem_cons_self c rest)]

theorem pyStripWhen_eq_self {p : Char → Bool} {s : Str}
    (h : ∀ c ∈ s, p c = false) : pyStripWhen p s = s := by
  unfold pyStripWhen
  rw [dropWhile_eq_self_of_forall h,
    dropWhile_eq_self_of_forall (fun c hc => h c (List.mem_reverse.mp hc)),
    List.reverse_reverse]

theorem pyStrip_eq_self {s : Str}
    (h : ∀ c ∈ s, c.isWhitespace = false) : pyStrip s = s :=
  pyStripWhen_eq_self h

theorem pyStripWhen_sandwich (p : Char → Bool) (a b : Char) (mid : Str)
    (ha : p a = false) (hb : p b = false) :
    pyStripWhen p (a :: (mid ++ [b])) = a :: (mid ++ [b]) := by
  unfold pyStripWhen
  rw [List.dropWhile_cons]
  simp only [ha, Bool.false_eq_true, if_false]
  have hrev : (a :: (mid ++ [b])).reverse = b :: (mid.reverse ++ [a]) := by
    simp
  rw [hrev, List.dropWhile_cons]
  simp only [hb, Bool.false_eq_true, if_false]
  rw [← hrev, List.reverse_reverse]

theorem pyStrip_parentMarker_append {s : Str} (hne : s ≠ [])
    (h : ∀ c ∈ s, c.isWhitespace = false) :
    pyStrip (parentMarker ++ s) = parentMarker ++ s := by
  rcases List.eq_nil_or_concat s with rfl | ⟨L, b, rfl⟩
  · exact absurd rfl hne
  · rw [List.concat_eq_append] at h ⊢
    have hshape : parentMarker ++ (L ++ [b]) =
        'P' :: (("arent branch: ".data ++ L) ++ [b]) := by
      have : parentMarker = 'P' :: "arent branch: ".data := by decide
      rw [this]
      simp
    rw [hshape]
    exact pyStripWhen_sandwich _ 'P' b _ (by decide)
      (h b (by simp))

theorem isPrefixOf_append_self (l t : Str) : l.isPrefixOf (l ++ t) = true := by
  induction l with
  | nil => cases t <;> rfl
  | cons c cs ih => simp [List.cons_append, List.isPrefixOf, ih]

theorem mem_of_isPrefixOf {l s : Str} (h : l.isPrefixOf s = true)
    {a : Char} (ha : a ∈ l) : a ∈ s := by
  induction l generalizing s with
  | nil => simp at ha
  | cons c cs ih =>
    cases s with
    | nil => simp [List.isPrefixOf] at h
    | cons d ds =>
      simp only [List.isPrefixOf, Bool.and_eq_true, beq_iff_eq] at h
      rcases List.mem_cons.mp ha with rfl | hm
      · exact h.1 ▸ List.mem_cons_self d ds
      · exact List.mem_cons_of_mem _ (ih h.2 hm)

theorem pyReplaceAux_nil (old new : Str) (fuel : Nat) :
    pyReplaceAux old new fuel [] = [] := by
  cases fuel <;> rfl

theorem pyReplaceAux_zero (old new s : Str) :
    pyReplaceAux old new 0 s = s := by
  cases s <;> rfl

theorem pyReplaceAux_cons (old new : Str) (fuel : Nat) (c : Char) (rest : Str) :
    pyReplaceAux old new (fuel + 1) (c :: rest) =
      if old.isPrefixOf (c :: rest) && !old.isEmpty then
        new ++ pyReplaceAux old new fuel ((c :: rest).drop old.length)
      else c :: pyReplaceAux old new fuel rest := rfl

theorem pyReplaceAux_no_occ {old : Str} (new : Str) {a : Char} (ha : a ∈ old) :
    ∀ (fuel : Nat) (s : Str), (∀ c ∈ s, c ≠ a) →
      pyReplaceAux old new fuel s = s := by
  intro fuel
  induction fuel with
  | zero => intro s _; exact pyReplaceAux_zero ..
  | succ n ih =>
    intro s hs
    cases s with
    | nil => exact pyReplaceAux_nil ..
    | cons c rest =>
      rw [pyReplaceAux_cons]
      have hpre : old.isPrefixOf (c :: rest) = false := by
        cases hp : old.isPrefixOf (c :: rest) with
        | false => rfl
        | true => exact absurd rfl (hs a (mem_of_isPrefixOf hp ha))
      rw [hpre]
      simp only [Bool.false_and, Bool.false_eq_true, if_false, List.cons.injEq,
        true_and]
      exact ih rest fun c hc => hs c (List.mem_cons_of_mem _ hc)

theorem pyReplaceAux_head_match {old : Str} (new t : Str) (h : old ≠ [])
    (fuel : Nat) :
    pyReplaceAux old new (fuel + 1) (old ++ t) =
      new ++ pyReplaceAux old new fuel t := by
  obtain ⟨c, os, rfl⟩ := List.exists_cons_of_ne_nil h
  rw [List.cons_append, pyReplaceAux_cons]
  have h1 : (c :: os).isPrefixOf (c :: (os ++ t)) = true := by
    have := isPrefixOf_append_self (c :: os) t
    rwa [List.cons_append] at this
  rw [h1]
  simp only [List.isEmpty_cons, Bool.not_false, Bool.and_true,
    Bool.true_and, if_true]
  rw [List.length_cons, List.drop_succ_cons, List.drop_left]

theorem pyReplace_parentMarker_cancel {s : Str}
    (h : ∀ c ∈ s, c.isWhitespace = false) :
    pyReplace (parentMarker ++ s) parentMarker [] = s := by
  unfold pyReplace
  have hlen : (parentMarker ++ s).length = s.length + 14 + 1 := by
    rw [List.length_append]
    have : parentMarker.length = 15 := by decide
    omega
  rw [hlen, pyReplaceAux_head_match _ _ (by decide)]
  rw [pyReplaceAux_no_occ [] (show ' ' ∈ parentMarker by decide)]
  · simp
  · intro c hc he
    have := h c hc
    rw [he] at this
    exact absurd this (by decide)

theorem gaw_aux_nil (root cur : Str) : gaw_aux root [] cur = [] := rfl

theorem gaw_aux_cons (root line : Str) (rest : List Str) (cur : Str) :
    gaw_aux root (line :: rest) cur =
      if wtMarker.isPrefixOf line then gaw_aux root rest (splitOnceTail line)
      else if brMarker.isPrefixOf line && !cur.isEmpty then
        (if rhMarker.isPrefixOf (splitOnceTail line) && cur != root then
          [(pyReplace (splitOnceTail line) rhMarker [], cur)]
        else []) ++ gaw_aux root rest []
      else gaw_aux root rest cur := rfl

theorem gwp_aux_nil (root bn cur : Str) : gwp_aux root bn [] cur = none := rfl

theorem gwp_aux_cons (root bn line : Str) (rest : List Str) (cur : Str) :
    gwp_aux root bn (line :: rest) cur =
      if wtMarker.isPrefixOf line then gwp_aux root bn rest (splitOnceTail line)
      else if brMarker.isPrefixOf line && !cur.isEmpty then
        if splitOnceTail line == rhMarker ++ bn && cur != root then some cur
        else gwp_aux root bn rest []
      else gwp_aux root bn rest cur := rfl

/-- Invariant of the get_all_worktrees scan: every reported pair has a
non-empty path different from the repository root, its branch name comes
from a branch line with a refs/heads payload, and its path is the
pending accumulator or comes from a worktree line. -/
theorem gaw_aux_spec (root : Str) (lines : List Str) :
    ∀ (cur : Str), ∀ pr ∈ gaw_aux root lines cur,
      pr.2 ≠ [] ∧ pr.2 ≠ root ∧
      (∃ line ∈ lines, brMarker.isPrefixOf line = true ∧
          rhMarker.isPrefixOf (splitOnceTail line) = true ∧
          pr.1 = pyReplace (splitOnceTail line) rhMarker []) ∧
      (pr.2 = cur ∨ ∃ line ∈ lines, wtMarker.isPrefixOf line = true ∧
          splitOnceTail line = pr.2) := by
  induction lines with
  | nil => intro cur pr h; rw [gaw_aux_nil] at h; simp at h
  | cons line rest ih =>
    intro cur pr h
    rw [gaw_aux_cons] at h
    split at h
    next h1 =>
      obtain ⟨hne, hnr, hbr, hwt⟩ := ih (splitOnceTail line) pr h
      refine ⟨hne, hnr, ?_, ?_⟩
      · obtain ⟨l, hl, ha, hb, hc⟩ := hbr
        exact ⟨l, List.mem_cons_of_mem _ hl, ha, hb, hc⟩
      · rcases hwt with heq | ⟨l, hl, ha, hb⟩
        · exact Or.inr ⟨line, List.mem_cons_self line rest, h1, heq.symm⟩
        · exact Or.inr ⟨l, List.mem_cons_of_mem _ hl, ha, hb⟩
    next =>
      split at h
      next h2 =>
        obtain ⟨h2a, h2b⟩ := Bool.and_eq_true_iff.mp h2
        rcases List.mem_append.mp h with hin | hin
        · split at hin
          next h3 =>
            obtain ⟨h3a, h3b⟩ := Bool.and_eq_true_iff.mp h3
            have hpr : pr = (pyReplace (splitOnceTail line) rhMarker [], cur) := by
              simpa using hin
            subst hpr
            refine ⟨?_, bne_iff_ne.mp h3b, ?_, Or.inl rfl⟩
            · have hcur : cur ≠ [] := by
                have hem : cur.isEmpty = false := by simpa using h2b
                intro hc
                rw [hc] at hem
                simp at hem
              exact hcur
            · exact ⟨line, List.mem_cons_self line rest, h2a, h3a, rfl⟩
          next => simp at hin
        · obtain ⟨hne, hnr, hbr, hwt⟩ := ih [] pr hin
          refine ⟨hne, hnr, ?_, ?_⟩
          · obtain ⟨l, hl, ha, hb, hc⟩ := hbr
            exact ⟨l, List.mem_cons_of_mem _ hl, ha, hb, hc⟩
          · rcases hwt with heq | ⟨l, hl, ha, hb⟩
            · exact absurd heq hne
            · exact Or.inr ⟨l, List.mem_cons_of_mem _ hl, ha, hb⟩
      next =>
        obtain ⟨hne, hnr, hbr, hwt⟩ := ih cur pr h
        refine ⟨hne, hnr, ?_, ?_⟩
        · obtain ⟨l, hl, ha, hb, hc⟩ := hbr
          exact ⟨l, List.mem_cons_of_mem _ hl, ha, hb, hc⟩
        · rcases hwt with heq | ⟨l, hl, ha, hb⟩
          · exact Or.inl heq
          · exact Or.inr ⟨l, List.mem_cons_of_mem _ hl, ha, hb⟩

/-- Invariant of the get_worktree_path scan: a returned path passed the
main-repository exclusion test. -/
theorem gwp_aux_spec (root bn : Str) (lines : List Str) :
    ∀ (cur p : Str), gwp_aux root bn lines cur = some p → p ≠ root := by
  induction lines with
  | nil => intro cur p h; rw [gwp_aux_nil] at h; exact absurd h (by simp)
  | cons line rest ih =>
    intro cur p h
    rw [gwp_aux_cons] at h
    split at h
    next => exact ih _ p h
    next =>
      split at h
      next =>
        split at h
        next h3 =>
          have h3b := (Bool.and_eq_true_iff.mp h3).2
          injection h with h4
          exact h4 ▸ bne_iff_ne.mp h3b
        next => exact ih _ p h
      next => exact ih _ p h

/-- destroy_finish always reports the parent branch it was given and
whether the missing-lineage warning had been printed. -/
theorem destroy_finish_fields (B : Backend) (bn wt p : Str) (force warned : Bool) :
    (destroy_finish B bn wt p force warned).resolvedParent = some p ∧
    (destroy_finish B bn wt p force warned).warnedMissingParent = warned := by
  unfold destroy_finish
  split
  · exact ⟨rfl, rfl⟩
  · rcases h1 : applyMut B [] (Mutation.removeWorktree wt) with ⟨r, a⟩ | a
    · simp [h1]
    · rcases h2 : applyMut B a (Mutation.deleteBranch bn force) with ⟨r2, a2⟩ | a2
      · simp [h1, h2]
      · simp [h1, h2]

theorem isEmpty_append_left {l : Str} (r : Str) (h : l ≠ []) :
    (l ++ r).isEmpty = false := by
  cases l with
  | nil => exact absurd rfl h
  | cons c cs => rfl

/-- C1: destroy on a branch whose worktree reports any modified, staged,
or untracked entries exits fatally with the dirty-worktree error, for
both force values, before any mutation: the mutation trace is empty, so
the worktree and the branch are intact. -/
theorem claim_c1 (B : Backend) (b wt : Str) (force : Bool)
    (hwt : get_worktree_path B b = some wt)
    (hdirty : has_unstaged_changes (B.statusAt wt) = true) :
    destroy_worktree B b force =
      ⟨.err .dirtyWorktree, [], none, false⟩ := by
  simp [destroy_worktree, hwt, hdirty]

theorem claim_c1_witness :
    destroy_worktree Bdirty "feat".data false =
        ⟨.err .dirtyWorktree, [], none, false⟩ ∧
    destroy_worktree Bdirty "feat".data true =
        ⟨.err .dirtyWorktree, [], none, false⟩ :=
  ⟨claim_c1 Bdirty "feat".data "/repo-worktrees/feat".data false
      (by decide) (by decide),
   claim_c1 Bdirty "feat".data "/repo-worktrees/feat".data true
      (by decide) (by decide)⟩

/-- C2: on a clean worktree with a recorded parent, destroy without
force on a branch neither merged nor pushed fails with the
unsafe-destroy error and no mutation; destroy with force skips the
merge/push check (no merged/pushed hypothesis is needed) and removes the
worktree then force-deletes the branch; a successful destroy without
force deletes the branch with the normal non-force delete. -/
theorem claim_c2 (B : Backend) (b wt p : Str)
    (hwt : get_worktree_path B b = some wt)
    (hclean : has_unstaged_changes (B.statusAt wt) = false)
    (hpar : get_branch_parent B b = some p) :
    (is_branch_merged B b p = false → is_branch_tip_pushed B b = false →
      destroy_worktree B b false =
        ⟨.err .unsafeDestroy, [], some p, false⟩) ∧
    ((B.mutResult (.removeWorktree wt)).returncode = 0 →
     (B.mutResult (.deleteBranch b true)).returncode = 0 →
      destroy_worktree B b true =
        ⟨.ok, [.removeWorktree wt, .deleteBranch b true], some p, false⟩) ∧
    (is_branch_merged B b p = true →
     (B.mutResult (.removeWorktree wt)).returncode = 0 →
     (B.mutResult (.deleteBranch b false)).returncode = 0 →
      destroy_worktree B b false =
        ⟨.ok, [.removeWorktree wt, .deleteBranch b false], some p, false⟩) := by
  refine ⟨?_, ?_, ?_⟩
  · intro hm hp2
    simp [destroy_worktree, hwt, hclean, hpar, destroy_finish, hm, hp2]
  · intro h1 h2
    simp [destroy_worktree, hwt, hclean, hpar, destroy_finish, applyMut,
      run_command, h1, h2]
  · intro hm h1 h2
    simp [destroy_worktree, hwt, hclean, hpar, destroy_finish, hm, applyMut,
      run_command, h1, h2]

theorem claim_c2_witness :
    destroy_worktree B0 "feat".data false =
        ⟨.err .unsafeDestroy, [], some "main".data, false⟩ ∧
    destroy_worktree B0 "feat".data true =
        ⟨.ok, [.removeWorktree "/repo-worktrees/feat".data,
               .deleteBranch "feat".data true], some "main".data, false⟩ ∧
    destroy_worktree Bmerged "feat".data false =
        ⟨.ok, [.removeWorktree "/repo-worktrees/feat".data,
               .deleteBranch "feat".data false], some "main".data, false⟩ :=
  ⟨(claim_c2 B0 "feat".data "/repo-worktrees/feat".data "main".data
      (by decide) (by decide) (by decide)).1 (by decide) (by decide),
   (claim_c2 B0 "feat".data "/repo-worktrees/feat".data "main".data
      (by decide) (by decide) (by decide)).2.1 (by decide) (by decide),
   (claim_c2 Bmerged "feat".data "/repo-worktrees/feat".data "main".data
      (by decide) (by decide) (by decide)).2.2 (by decide) (by decide) (by decide)⟩

/-- C3: recording a parent and reading it back returns the parent
exactly (for a parent that is a branch name: non-empty, no whitespace);
and parsing a description result whose field is missing (non-zero
status), empty, or not prefixed with the parent marker yields none
rather than an error. -/
theorem claim_c3 (B : Backend) (b p : Str) (r : CmdResult)
    (hne : p ≠ []) (hws : ∀ c ∈ p, c.isWhitespace = false)
    (hr : r.returncode ≠ 0 ∨ pyStrip r.stdout = [] ∨
        parentMarker.isPrefixOf (pyStrip r.stdout) = false) :
    get_branch_parent (set_branch_parent B b p) b = some p ∧
    parse_branch_description r = none := by
  constructor
  · have hcfg : (set_branch_parent B b p).configDescription b =
        ⟨0, parentMarker ++ p, []⟩ := by
      simp [set_branch_parent]
    rw [get_branch_parent, hcfg, queryUnchecked_eq]
    have hst : pyStrip (parentMarker ++ p) = parentMarker ++ p :=
      pyStrip_parentMarker_append hne hws
    have hie : (parentMarker ++ p).isEmpty = false :=
      isEmpty_append_left p (by decide)
    simp [parse_branch_description, hst, hie, isPrefixOf_append_self,
      pyReplace_parentMarker_cancel hws, pyStrip_eq_self hws]
  · rcases hr with h | h | h
    · simp [parse_branch_description, h]
    · simp [parse_branch_description, h]
    · simp [parse_branch_description, h]

theorem claim_c3_witness :
    get_branch_parent (set_branch_parent B0 "feat".data "main".data)
        "feat".data = some "main".data ∧
    parse_branch_description ⟨1, [], []⟩ = none :=
  claim_c3 B0 "feat".data "main".data ⟨1, [], []⟩ (by decide) (by decide)
    (Or.inl (by decide))

/-- C4 counterexample: with an existing worktree for the branch and the
operator declining the attach prompt, create exits with status 0 (and
performs no mutation), not with status 1 as the claim states. -/
theorem claim_c4_counterexample :
    create_worktree B0 "feat".data = (.exit 0, []) ∧
    CreateOutcome.exit 0 ≠ CreateOutcome.exit 1 :=
  ⟨by decide, by decide⟩

/-- C4 (amended): when a worktree already exists for the branch and the
operator declines the attach prompt, create terminates with exit status
0 (a clean cancel) and performs no mutation: no branch created, no
worktree added, no metadata written. -/
theorem claim_c4 (B : Backend) (b wt : Str)
    (hwt : get_worktree_path B b = some wt)
    (hresp : (pyLower (pyStrip B.promptResponse) == yStr) = false) :
    create_worktree B b = (.exit 0, []) := by
  simp [create_worktree, hwt, hresp]

theorem claim_c4_witness :
    create_worktree B0 "feat".data = (.exit 0, []) :=
  claim_c4 B0 "feat".data "/repo-worktrees/feat".data (by decide) (by decide)

/-- C5 counterexample: on a backend failure that is not a plain negative
result (non-zero status, not-a-repository diagnostic), the
uncommitted-changes query does not abort: its unchecked command wrapper
returns normally and the query reports the ordinary negative answer
(clean), and the merged-branches listing test likewise reports not
merged. -/
theorem claim_c5_counterexample :
    failRes.returncode ≠ 0 ∧
    run_command false failRes = .ok failRes ∧
    has_unstaged_changes failRes = false ∧
    merged_listing_contains "feat".data failRes = false :=
  ⟨by decide, rfl, by decide, by decide⟩

/-- C5 (amended): a backend command run with checking enabled aborts the
invocation with the backend result carrying its diagnostic on any
non-zero status; but the uncommitted-changes query and the
merged-branches query are run with checking disabled and map a backend
failure (non-zero status, empty output) to the ordinary negative answer
(clean, not merged) instead of aborting. -/
theorem claim_c5 (r : CmdResult) (bn : Str)
    (hf : r.returncode ≠ 0) (hout : r.stdout = []) (hbn : bn ≠ []) :
    run_command true r = .error r ∧
    run_command false r = .ok r ∧
    has_unstaged_changes r = false ∧
    merged_listing_contains bn r = false := by
  refine ⟨?_, rfl, ?_, ?_⟩
  · simp [run_command, bne_iff_ne, hf]
  · simp [has_unstaged_changes, queryUnchecked_eq, hout, pyStrip, pyStripWhen]
  · cases bn with
    | nil => exact absurd rfl hbn
    | cons c cs =>
      simp [merged_listing_contains, hout, pyStrip, pyStripWhen, pySplitChar]

theorem claim_c5_witness :
    run_command true failRes = .error failRes ∧
    run_command false failRes = .ok failRes ∧
    has_unstaged_changes failRes = false ∧
    merged_listing_contains "main".data failRes = false :=
  claim_c5 failRes "main".data (by decide) rfl (by decide)

/-- C6: the worktree listing parsers never report the main repository's
own checkout (every reported path differs from the repository root, and
a path returned for a branch differs from the root), and every reported
pair comes from an entry with a branch line (its name parsed from a
refs/heads branch line, its path from a worktree line): bare or
detached entries, which have no branch line, are never reported. -/
theorem claim_c6 (B : Backend) (bn : Str) (pr : Str × Str) (p : Str)
    (hpr : pr ∈ get_all_worktrees B)
    (hp : get_worktree_path B bn = some p) :
    (pr.2 ≠ B.gitRoot ∧
     (∃ line ∈ porcelainLines B.porcelain, brMarker.isPrefixOf line = true ∧
         rhMarker.isPrefixOf (splitOnceTail line) = true ∧
         pr.1 = pyReplace (splitOnceTail line) rhMarker []) ∧
     (∃ line ∈ porcelainLines B.porcelain, wtMarker.isPrefixOf line = true ∧
         splitOnceTail line = pr.2)) ∧
    p ≠ B.gitRoot := by
  unfold get_all_worktrees at hpr
  unfold get_worktree_path at hp
  obtain ⟨hne, hnr, hbr, hwt⟩ :=
    gaw_aux_spec B.gitRoot (porcelainLines B.porcelain) [] pr hpr
  refine ⟨⟨hnr, hbr, ?_⟩,
    gwp_aux_spec B.gitRoot bn (porcelainLines B.porcelain) [] p hp⟩
  rcases hwt with heq | hex
  · exact absurd heq hne
  · exact hex

theorem claim_c6_witness :
    ((("feat".data, "/repo-worktrees/feat".data) : Str × Str).2 ≠ B0.gitRoot ∧
     (∃ line ∈ porcelainLines B0.porcelain, brMarker.isPrefixOf line = true ∧
         rhMarker.isPrefixOf (splitOnceTail line) = true ∧
         (("feat".data, "/repo-worktrees/feat".data) : Str × Str).1 =
           pyReplace (splitOnceTail line) rhMarker []) ∧
     (∃ line ∈ porcelainLines B0.porcelain, wtMarker.isPrefixOf line = true ∧
         splitOnceTail line = (("feat".data, "/repo-worktrees/feat".data) : Str × Str).2)) ∧
    "/repo-worktrees/feat".data ≠ B0.gitRoot :=
  claim_c6 B0 "feat".data ("feat".data, "/repo-worktrees/feat".data)
    "/repo-worktrees/feat".data (by decide) (by decide)

/-- C9: creating a worktree for an already-existing branch writes no
parent-lineage record (no setDescription mutation appears in the
trace), and a subsequent destroy on a backend where the branch has no
readable description resolves the parent through the main-branch
heuristic, with the missing-lineage warning. -/
theorem claim_c9 (B B2 : Backend) (b wt m d s : Str) (force : Bool)
    (hbe : branch_exists B b = true)
    (hwt : get_worktree_path B b = none)
    (hwt2 : get_worktree_path B2 b = some wt)
    (hclean : has_unstaged_changes (B2.statusAt wt) = false)
    (hpar : get_branch_parent B2 b = none)
    (hmain : get_main_branch B2 = .ok (some m)) :
    Mutation.setDescription d s ∉ (create_worktree B b).2 ∧
    (destroy_worktree B2 b force).resolvedParent = some m ∧
    (destroy_worktree B2 b force).warnedMissingParent = true := by
  have hd : destroy_worktree B2 b force = destroy_finish B2 b wt m force true := by
    simp [destroy_worktree, hwt2, hclean, hpar, hmain]
  have hsteps : create_branch_steps B b = .ok [] := by
    simp [create_branch_steps, hbe]
  refine ⟨?_, by rw [hd]; exact (destroy_finish_fields B2 b wt m force true).1,
    by rw [hd]; exact (destroy_finish_fields B2 b wt m force true).2⟩
  simp only [create_worktree, hwt, hsteps]
  rcases hrun : run_command true (B.mutResult (Mutation.addWorktree
      (joinPath (joinPath (dirname B.gitRoot) (basename B.gitRoot ++ containerSuffix)) b)
      b)) with r | r
  · simp [applyMut, hrun]
  · cases hrel : (normRel B.relPathCwdRoot).isEmpty <;>
      simp [applyMut, hrun, enter_worktree, hrel]

theorem claim_c9_witness :
    Mutation.setDescription "x".data "y".data ∉
        (create_worktree Bexisting "feat".data).2 ∧
    (destroy_worktree Bnoparent "feat".data false).resolvedParent =
        some "main".data ∧
    (destroy_worktree Bnoparent "feat".data false).warnedMissingParent = true :=
  claim_c9 Bexisting Bnoparent "feat".data "/repo-worktrees/feat".data
    "main".data "x".data "y".data false (by decide) (by decide) (by decide)
    (by decide) (by decide) (by rfl)

/-- C10: in interactive destroy, once a branch is selected from the
menu, destruction runs exactly when the confirmation menu returns index
0; any other confirmation outcome, including dismissal, yields a
cancellation with no mutation performed. -/
theorem claim_c10 (B : Backend) (force : Bool) (i : Nat) (cs : Option Nat)
    (hi : i < (get_all_worktrees B).length) :
    (cs ≠ some 0 →
      destroy_worktree_interactive B force (some i) cs = .cancelled) ∧
    destroy_worktree_interactive B force (some i) (some 0) =
      .delegated (destroy_worktree B ((get_all_worktrees B).get ⟨i, hi⟩).1 force) := by
  have hne : (get_all_worktrees B).isEmpty = false := by
    cases h : get_all_worktrees B with
    | nil => rw [h] at hi; simp at hi
    | cons a l => rfl
  have hidx : (i == (get_all_worktrees B).length) = false := by
    simp [Nat.ne_of_lt hi]
  have hget : (get_all_worktrees B)[i]? = some (get_all_worktrees B)[i] :=
    List.getElem?_eq_getElem hi
  constructor
  · intro hcs
    cases cs with
    | none => simp [destroy_worktree_interactive, hne, hidx, hget]
    | some n =>
      cases n with
      | zero => exact absurd rfl hcs
      | succ k => simp [destroy_worktree_interactive, hne, hidx, hget]
  · simp [destroy_worktree_interactive, hne, hidx, hget]

theorem claim_c10_witness :
    destroy_worktree_interactive B0 false (some 0) (some 1) = .cancelled ∧
    destroy_worktree_interactive B0 false (some 0) none = .cancelled ∧
    destroy_worktree_interactive B0 false (some 0) (some 0) =
      .delegated (destroy_worktree B0 "feat".data false) :=
  ⟨(claim_c10 B0 false 0 (some 1) (by decide)).1 (by decide),
   (claim_c10 B0 false 0 none (by decide)).1 (by decide),
   ((claim_c10 B0 false 0 (some 0) (by decide)).2).trans (by decide)⟩

/-- C7: for a branch that does not exist and has no worktree, create
creates the branch from the current branch, records the current branch
as parent lineage, switches back to the previous branch, creates the
sibling container directory on demand and adds the worktree at the
container subdirectory named by the branch, in that order, before
entering the worktree. -/
theorem claim_c7 (B : Backend) (b : Str)
    (hwt : get_worktree_path B b = none)
    (hbe : branch_exists B b = false)
    (hm1 : (B.mutResult (.createBranch b)).returncode = 0)
    (hm2 : (B.mutResult (.setDescription b
        (parentMarker ++ B.currentBranch))).returncode = 0)
    (hm3 : (B.mutResult .checkoutPrevious).returncode = 0)
    (hm4 : (B.mutResult (.addWorktree
        (joinPath (joinPath (dirname B.gitRoot)
          (basename B.gitRoot ++ containerSuffix)) b) b)).returncode = 0) :
    create_worktree B b =
      (let container := joinPath (dirname B.gitRoot)
         (basename B.gitRoot ++ containerSuffix)
       let worktree_dir := joinPath container b
       let rel := normRel B.relPathCwdRoot
       let target := if rel.isEmpty then worktree_dir
         else joinPath worktree_dir rel
       (.execShell target,
        [.createBranch b, .setDescription b (parentMarker ++ B.currentBranch),
         .checkoutPrevious, .makeDirs container, .addWorktree worktree_dir b]
        ++ (if rel.isEmpty then [] else [.makeDirs target])
        ++ [.copyUntracked B.cwd target, .chdir target])) := by
  cases hrel : (normRel B.relPathCwdRoot).isEmpty <;>
    simp [create_worktree, hwt, create_branch_steps, hbe, applyMut, run_command,
      hm1, hm2, hm3, hm4, enter_worktree, hrel]

theorem claim_c7_witness :
    create_worktree Bnew "feat".data =
      (.execShell "/repo-worktrees/feat".data,
       [.createBranch "feat".data,
        .setDescription "feat".data "Parent branch: main".data,
        .checkoutPrevious,
        .makeDirs "/repo-worktrees".data,
        .addWorktree "/repo-worktrees/feat".data "feat".data,
        .copyUntracked "/repo".data "/repo-worktrees/feat".data,
        .chdir "/repo-worktrees/feat".data]) :=
  (claim_c7 Bnew "feat".data (by decide) (by decide) (by decide) (by decide)
    (by decide) (by decide)).trans (by decide)

/-- C8: any create or attach invocation that reaches a worktree ends up
in the directory obtained by appending the invocation-time relative
subpath to the worktree it used (the existing worktree, or the planned
one create just added), and when the subpath is non-empty that target
subdirectory is created on demand (a makeDirs for it appears in the
trace). -/
theorem claim_c8 (B : Backend) (bn d : Str) (muts : List Mutation) :
    (create_worktree B bn = (.execShell d, muts) →
      d = (if (normRel B.relPathCwdRoot).isEmpty then located_worktree B bn
           else joinPath (located_worktree B bn) (normRel B.relPathCwdRoot)) ∧
      ((normRel B.relPathCwdRoot).isEmpty = false →
        Mutation.makeDirs d ∈ muts)) ∧
    (attach_worktree B bn = (.execShell d, muts) →
      d = (if (normRel B.relPathCwdRoot).isEmpty then located_worktree B bn
           else joinPath (located_worktree B bn) (normRel B.relPathCwdRoot)) ∧
      ((normRel B.relPathCwdRoot).isEmpty = false →
        Mutation.makeDirs d ∈ muts)) := by
  cases hwt : get_worktree_path B bn with
  | some wt =>
    have hloc : located_worktree B bn = wt := by simp [located_worktree, hwt]
    constructor
    · intro h
      by_cases hy : (pyLower (pyStrip B.promptResponse) == yStr) = true
      · cases hrel : (normRel B.relPathCwdRoot).isEmpty <;>
          simp [create_worktree, hwt, hy, enter_worktree, hrel] at h <;>
          obtain ⟨hd, hm⟩ := h <;> subst hd <;> subst hm <;>
          simp [hloc, hrel]
      · rw [Bool.not_eq_true] at hy
        simp [create_worktree, hwt, hy] at h
    · intro h
      cases hrel : (normRel B.relPathCwdRoot).isEmpty <;>
        simp [attach_worktree, hwt, enter_worktree, hrel] at h <;>
        obtain ⟨hd, hm⟩ := h <;> subst hd <;> subst hm <;>
        simp [hloc, hrel]
  | none =>
    have hloc : located_worktree B bn =
        joinPath (joinPath (dirname B.gitRoot)
          (basename B.gitRoot ++ containerSuffix)) bn := by
      simp [located_worktree, hwt]
    constructor
    · intro h
      rcases hcs : create_branch_steps B bn with ⟨r, a⟩ | a
      · simp [create_worktree, hwt, hcs] at h
      · rcases hrun : run_command true (B.mutResult (Mutation.addWorktree
            (joinPath (joinPath (dirname B.gitRoot)
              (basename B.gitRoot ++ containerSuffix)) bn) bn)) with r | r
        · simp [create_worktree, hwt, hcs, applyMut, hrun] at h
        · cases hrel : (normRel B.relPathCwdRoot).isEmpty <;>
            simp [create_worktree, hwt, hcs, applyMut, hrun, enter_worktree,
              hrel] at h <;>
            obtain ⟨hd, hm⟩ := h <;> subst hd <;> subst hm <;>
            simp [hloc, hrel]
    · intro h
      simp [attach_worktree, hwt] at h

theorem claim_c8_witness :
    ("/repo-worktrees/feat/sub".data =
        (if (normRel Bsub.relPathCwdRoot).isEmpty then located_worktree Bsub "feat".data
         else joinPath (located_worktree Bsub "feat".data) (normRel Bsub.relPathCwdRoot)) ∧
      ((normRel Bsub.relPathCwdRoot).isEmpty = false →
        Mutation.makeDirs "/repo-worktrees/feat/sub".data ∈
          [Mutation.makeDirs "/repo-worktrees/feat/sub".data,
           Mutation.chdir "/repo-worktrees/feat/sub".data])) ∧
    ("/repo-worktrees/feat/sub".data =
        (if (normRel Bsub.relPathCwdRoot).isEmpty then located_worktree Bsub "feat".data
         else joinPath (located_worktree Bsub "feat".data) (normRel Bsub.relPathCwdRoot)) ∧
      ((normRel Bsub.relPathCwdRoot).isEmpty = false →
        Mutation.makeDirs "/repo-worktrees/feat/sub".data ∈
          [Mutation.makeDirs "/repo-worktrees/feat/sub".data,
           Mutation.chdir "/repo-worktrees/feat/sub".data])) :=
  ⟨(claim_c8 Bsub "feat".data "/repo-worktrees/feat/sub".data
      [Mutation.makeDirs "/repo-worktrees/feat/sub".data,
       Mutation.chdir "/repo-worktrees/feat/sub".data]).1 (by decide),
   (claim_c8 Bsub "feat".data "/repo-worktrees/feat/sub".data
      [Mutation.makeDirs "/repo-worktrees/feat/sub".data,
       Mutation.chdir "/repo-worktrees/feat/sub".data]).2 (by decide)⟩
